import Mathlib

/-!
# Phonebook system calls (`ipc/phonebook/phonebook.c`, `ipc/phonebook/phonebook.h`)

A shallow embedding of the three phonebook system calls `add_user`, `get_user`
and `del_user` (the `CONFIG_MODULES` variant), of the helper `find_pb_module`,
and of the record comparison `pb_ud_cmp`.

The system calls are straight-line C with early returns.  Each kernel service
they call (`find_module`, `try_module_get`, `find_kallsyms_symbol_value`,
`kzalloc`, `copy_from_user`, the provider's handler, `copy_to_user`) has an
outcome the system call cannot control; these outcomes are the fields of
`World`.  The part of the kernel state the calls change is `Kernel`: the
reference count of the phonebook module, the allocation counter and the
sequence of kernel services executed so far (`trace`).
-/

namespace Phonebook

/-! ## Error numbers (`include/uapi/asm-generic/errno-base.h`) -/

/-- Out of memory; the kernel's value of `ENOMEM`. -/
def ENOMEM : Int := 12
/-- Bad address; the kernel's value of `EFAULT`. -/
def EFAULT : Int := 14
/-- No such device; the kernel's value of `ENODEV`. -/
def ENODEV : Int := 19
/-- Invalid argument; the kernel's value of `EINVAL`. -/
def EINVAL : Int := 22

/-- The value of `sizeof(struct pb_user_data)`: two 64-byte arrays, a 4-byte
`unsigned int`, a 16-byte array and a 64-byte array; every offset is a multiple
of 4, so there is no padding. -/
def sizeof_pb_user_data : Nat := 64 + 64 + 4 + 16 + 64

/-! ## Kernel state, environment and events -/

/-- The result of `find_module("phonebook")` when it is not `NULL`. -/
inductive Module where
  | phonebook
  deriving DecidableEq, Repr

/-- The three symbols looked up with `find_kallsyms_symbol_value`; a resolved
symbol is the handler's address, so the same type stands for the function
pointers `pb_add_user_t`, `pb_get_user_t` and `pb_del_user_t`. -/
inductive Symbol where
  | pb_add_user
  | pb_get_user
  | pb_del_user
  deriving DecidableEq, Repr

/-- One kernel service executed by a system call, with its arguments and
result.  A pointer returned by `kzalloc` is `none` for `NULL`. -/
inductive Event where
  | mutex_lock
  | mutex_unlock
  | find_module (found : Bool)
  | try_module_get (ok : Bool)
  | module_put
  | find_kallsyms_symbol_value (name : Symbol) (found : Bool)
  | kzalloc (size : Nat) (ptr : Option Nat)
  | kfree (ptr : Nat)
  | copy_from_user (dst : Nat) (n : Nat) (not_copied : Nat)
  | call (func : Symbol)
  | copy_to_user (src : Nat) (n : Nat) (not_copied : Nat)
  deriving DecidableEq, Repr

/-- Outcomes of the kernel services, which the system calls do not control. -/
structure World where
  /-- A module named "phonebook" is loaded (`find_module` is not `NULL`). -/
  find_module : Bool
  /-- The module is live, not being unloaded (`try_module_get` returns true). -/
  try_module_get : Bool
  /-- The module exports the symbol (the lookup is not `NULL`). -/
  find_kallsyms_symbol_value : Symbol → Bool
  /-- Whether the allocation request with the given sequence number succeeds. -/
  kzalloc : Nat → Bool
  /-- Number of bytes `copy_from_user` could not copy. -/
  copy_from_user : Nat
  /-- The `long` returned by the provider's handler. -/
  handler : Symbol → Int
  /-- Number of bytes `copy_to_user` could not copy. -/
  copy_to_user : Nat

/-- The kernel state the system calls read and change. -/
structure Kernel where
  /-- Reference count (pin count) of the phonebook module. -/
  refcnt : Nat
  /-- Allocation requests served so far; the next fresh buffer address. -/
  nalloc : Nat
  /-- Kernel services executed so far, oldest first. -/
  trace : List Event

/-- Record the execution of a kernel service. -/
def Kernel.log (k : Kernel) (e : Event) : Kernel :=
  { k with trace := k.trace ++ [e] }

/-- The services executed between state `k0` and the later state `k1`. -/
def call_trace (k0 k1 : Kernel) : List Event :=
  k1.trace.drop k0.trace.length

/-! ## Kernel services

The services below belong to the kernel proper, outside the phonebook sources.
What each returns is an outcome of `World`; each records its execution in the
trace. -/

/-- Take `module_mutex`. -/
def mutex_lock (k : Kernel) : Kernel := k.log Event.mutex_lock

/-- Release `module_mutex`. -/
def mutex_unlock (k : Kernel) : Kernel := k.log Event.mutex_unlock

/-- Look the module up by name, `find_module("phonebook")`; `none` is `NULL`. -/
def find_module (w : World) (k : Kernel) : Option Module × Kernel :=
  (if w.find_module then some Module.phonebook else none,
   k.log (Event.find_module w.find_module))

/-- Modelled from the spec: `try_module_get` belongs to the module subsystem,
outside the phonebook sources.  Pinning increments the liveness counter of the
provider; a provider flagged as shutting down is not pinned. -/
def try_module_get (w : World) (_mod : Module) (k : Kernel) : Bool × Kernel :=
  if w.try_module_get then
    (true, { k with refcnt := k.refcnt + 1,
                    trace := k.trace ++ [Event.try_module_get true] })
  else
    (false, k.log (Event.try_module_get false))

/-- Modelled from the spec: `module_put` belongs to the module subsystem,
outside the phonebook sources.  Unpinning decrements the liveness counter. -/
def module_put (_mod : Module) (k : Kernel) : Kernel :=
  { k with refcnt := k.refcnt - 1, trace := k.trace ++ [Event.module_put] }

/-- Address of a symbol of the module; `none` is `NULL`. -/
def find_kallsyms_symbol_value (w : World) (_mod : Module) (name : Symbol)
    (k : Kernel) : Option Symbol × Kernel :=
  (if w.find_kallsyms_symbol_value name then some name else none,
   k.log (Event.find_kallsyms_symbol_value name (w.find_kallsyms_symbol_value name)))

/-- Modelled from the spec: `kzalloc` belongs to the kernel allocator, outside
the phonebook sources.  A request for a staging buffer either fails (`NULL`,
here `none`) or returns a buffer of its own, distinct from every other one. -/
def kzalloc (w : World) (size : Nat) (k : Kernel) : Option Nat × Kernel :=
  let ptr := if w.kzalloc k.nalloc then some k.nalloc else none
  (ptr, { k with nalloc := k.nalloc + 1,
                 trace := k.trace ++ [Event.kzalloc size ptr] })

/-- Release a buffer obtained from `kzalloc`. -/
def kfree (ptr : Nat) (k : Kernel) : Kernel := k.log (Event.kfree ptr)

/-- Copy `n` bytes from user space; returns the number of bytes not copied. -/
def copy_from_user (w : World) (dst : Nat) (n : Nat) (k : Kernel) : Nat × Kernel :=
  (w.copy_from_user, k.log (Event.copy_from_user dst n w.copy_from_user))

/-- Copy `n` bytes to user space; returns the number of bytes not copied. -/
def copy_to_user (w : World) (src : Nat) (n : Nat) (k : Kernel) : Nat × Kernel :=
  (w.copy_to_user, k.log (Event.copy_to_user src n w.copy_to_user))

/-- Call the provider's handler through the resolved function pointer. -/
def call (w : World) (func : Symbol) (k : Kernel) : Int × Kernel :=
  (w.handler func, k.log (Event.call func))

/-! ## `phonebook.c` -/

/-- The function `find_pb_module`: under `module_mutex`, find the module and
take a reference on it; `none` (`NULL`) when it is absent or being unloaded. -/
def find_pb_module (w : World) (k : Kernel) : Option Module × Kernel :=
  let k := mutex_lock k
  match find_module w k with
  | (none, k) => (none, mutex_unlock k)
  | (some mod, k) =>
    match try_module_get w mod k with
    | (false, k) => (none, mutex_unlock k)
    | (true, k) => (some mod, mutex_unlock k)

/-- The system call `SYSCALL_DEFINE1(add_user, ud)`. -/
def add_user (w : World) (k : Kernel) : Int × Kernel :=
  match find_pb_module w k with
  | (none, k) => (-ENODEV, k)
  | (some pb_mod, k) =>
    match find_kallsyms_symbol_value w pb_mod Symbol.pb_add_user k with
    | (none, k) => (-ENODEV, module_put pb_mod k)
    | (some func, k) =>
      match kzalloc w sizeof_pb_user_data k with
      | (none, k) => (-ENOMEM, module_put pb_mod k)
      | (some copied_ud, k) =>
        match copy_from_user w copied_ud sizeof_pb_user_data k with
        | (error_count, k) =>
          if error_count ≠ 0 then
            (-EFAULT, module_put pb_mod (kfree copied_ud k))
          else
            match call w func k with
            | (result, k) => (result, module_put pb_mod (kfree copied_ud k))

/-- The system call `SYSCALL_DEFINE3(get_user, last_name, len, ud)`; `len` is
an `unsigned int`. -/
def get_user (w : World) (len : Nat) (k : Kernel) : Int × Kernel :=
  match find_pb_module w k with
  | (none, k) => (-ENODEV, k)
  | (some pb_mod, k) =>
    match find_kallsyms_symbol_value w pb_mod Symbol.pb_get_user k with
    | (none, k) => (-ENODEV, module_put pb_mod k)
    | (some func, k) =>
      match kzalloc w len k with
      | (none, k) => (-ENOMEM, module_put pb_mod k)
      | (some copied_last_name, k) =>
        if len = 0 then
          (-EINVAL, module_put pb_mod (kfree copied_last_name k))
        else
          match copy_from_user w copied_last_name len k with
          | (error_count, k) =>
            if error_count ≠ 0 then
              (-EFAULT, module_put pb_mod (kfree copied_last_name k))
            else
              match kzalloc w sizeof_pb_user_data k with
              | (none, k) =>
                (-ENOMEM, module_put pb_mod (kfree copied_last_name k))
              | (some ud_to_copy, k) =>
                match call w func k with
                | (result, k) =>
                  match copy_to_user w ud_to_copy sizeof_pb_user_data k with
                  | (error_count, k) =>
                    if error_count ≠ 0 then
                      (-EFAULT,
                        module_put pb_mod (kfree ud_to_copy (kfree copied_last_name k)))
                    else
                      (result,
                        module_put pb_mod (kfree ud_to_copy (kfree copied_last_name k)))

/-- The system call `SYSCALL_DEFINE2(del_user, last_name, len)`; `len` is an
`unsigned int`. -/
def del_user (w : World) (len : Nat) (k : Kernel) : Int × Kernel :=
  match find_pb_module w k with
  | (none, k) => (-ENODEV, k)
  | (some pb_mod, k) =>
    match find_kallsyms_symbol_value w pb_mod Symbol.pb_del_user k with
    | (none, k) => (-ENODEV, module_put pb_mod k)
    | (some func, k) =>
      match kzalloc w len k with
      | (none, k) => (-ENOMEM, module_put pb_mod k)
      | (some copied_last_name, k) =>
        if len = 0 then
          (-EINVAL, module_put pb_mod (kfree copied_last_name k))
        else
          match copy_from_user w copied_last_name len k with
          | (error_count, k) =>
            if error_count ≠ 0 then
              (-EFAULT, module_put pb_mod (kfree copied_last_name k))
            else
              match call w func k with
              | (result, k) =>
                (result, module_put pb_mod (kfree copied_last_name k))


/-! ## `phonebook.h` -/

/-- A `char` array of `n` bytes with arbitrary contents. -/
abbrev CharArray (n : Nat) := { l : List (Fin 256) // l.length = n }

/-- The record `struct pb_user_data`. -/
structure pb_user_data where
  first_name : CharArray 64
  last_name : CharArray 64
  age : Fin (2 ^ 32)
  telnum : CharArray 16
  email : CharArray 64

/-- Modelled from the spec: `strncmp` is the kernel library routine
(`lib/string.c`), outside the phonebook sources.  It is the byte-wise
comparison of C strings: at most `count` bytes are compared as `unsigned char`,
the first differing byte decides with -1 or 1, and the comparison stops with 0
after a NUL byte common to both.  A read past the end of a list yields 0; it
does not happen when `count` is the size of both arrays. -/
def strncmp : List (Fin 256) → List (Fin 256) → Nat → Int
  | _, _, 0 => 0
  | cs, ct, count + 1 =>
    let c1 := cs.headD 0
    let c2 := ct.headD 0
    if c1 ≠ c2 then
      if c1 < c2 then -1 else 1
    else if c1 = 0 then 0
    else strncmp cs.tail ct.tail count

/-- The macro `cmp_char_array(lhs, rhs)`, `strncmp(lhs, rhs, sizeof(lhs))`. -/
def cmp_char_array {n : Nat} (lhs rhs : CharArray n) : Int :=
  strncmp lhs.val rhs.val n

/-- The function `pb_ud_cmp`. -/
def pb_ud_cmp (ud1 ud2 : pb_user_data) : Int :=
  let cmp := cmp_char_array ud1.first_name ud2.first_name
  if cmp ≠ 0 then cmp else
  let cmp := cmp_char_array ud1.last_name ud2.last_name
  if cmp ≠ 0 then cmp else
  if ud1.age ≠ ud2.age then
    if ud1.age < ud2.age then -1 else 1
  else
  let cmp := cmp_char_array ud1.telnum ud2.telnum
  if cmp ≠ 0 then cmp else
  let cmp := cmp_char_array ud1.email ud2.email
  if cmp ≠ 0 then cmp else
  0

/-- The C string held in a `char` array: the bytes before the first NUL byte,
or the whole array when it holds none. -/
def c_string {n : Nat} (a : CharArray n) : List (Fin 256) :=
  a.val.takeWhile (fun c => c ≠ 0)

/-! ## Three-way comparisons -/

/-- A three-way comparison `f` orders its arguments consistently: swapping the
arguments swaps the sign, "less" is transitive, and arguments comparing equal
are interchangeable on either side. -/
structure WeakCmp {α : Type} (f : α → α → Int) : Prop where
  swap : ∀ a b, f a b < 0 ↔ 0 < f b a
  trans : ∀ a b c, f a b < 0 → f b c < 0 → f a c < 0
  eq_left : ∀ a b c, f a b = 0 → f a c = f b c
  eq_right : ∀ a b c, f a b = 0 → f c a = f c b

/-- Comparison by `f`, then by `g` where `f` compares equal. -/
def lex_cmp {α : Type} (f g : α → α → Int) (a b : α) : Int :=
  if f a b ≠ 0 then f a b else g a b

/-- The comparison of `age` inside `pb_ud_cmp`, as a three-way result. -/
def age_cmp (ud1 ud2 : pb_user_data) : Int :=
  if ud1.age ≠ ud2.age then
    if ud1.age < ud2.age then -1 else 1
  else 0

/-! ## Properties of event sequences -/

/-- Number of handler invocations among the events. -/
def handler_calls : List Event → Nat
  | [] => 0
  | Event.call _ :: es => handler_calls es + 1
  | _ :: es => handler_calls es

/-- Every handler invocation happens while the pin is held: after a
successful `try_module_get` and before the next `module_put`.  The flag tells
whether the pin is held before the first event. -/
def calls_pinned : Bool → List Event → Bool
  | _, [] => true
  | _, Event.try_module_get true :: es => calls_pinned true es
  | _, Event.module_put :: es => calls_pinned false es
  | pinned, Event.call _ :: es => pinned && calls_pinned pinned es
  | pinned, _ :: es => calls_pinned pinned es

/-- Number of `kzalloc` requests among the events, failed ones included. -/
def kzalloc_calls : List Event → Nat
  | [] => 0
  | Event.kzalloc _ _ :: es => kzalloc_calls es + 1
  | _ :: es => kzalloc_calls es

/-- Addresses returned by the successful `kzalloc` requests, oldest first. -/
def allocated : List Event → List Nat
  | [] => []
  | Event.kzalloc _ (some p) :: es => p :: allocated es
  | _ :: es => allocated es

/-- Addresses passed to `kfree`, oldest first. -/
def released : List Event → List Nat
  | [] => []
  | Event.kfree p :: es => p :: released es
  | _ :: es => released es

/-- Replay of allocations and releases.  `owned` holds the buffers allocated
and not yet released; the result is `none` when `kfree` is applied to a buffer
that is not owned at that point, and the buffers still owned at the end
otherwise. -/
def replay_heap : List Nat → List Event → Option (List Nat)
  | owned, [] => some owned
  | owned, Event.kzalloc _ (some p) :: es => replay_heap (p :: owned) es
  | owned, Event.kfree p :: es =>
    if p ∈ owned then replay_heap (owned.erase p) es else none
  | owned, _ :: es => replay_heap owned es

/-- Every `module_put` happens when no allocated buffer is still unreleased.
`owned` holds the buffers allocated and not yet released. -/
def put_after_release : List Nat → List Event → Bool
  | _, [] => true
  | owned, Event.kzalloc _ (some p) :: es => put_after_release (p :: owned) es
  | owned, Event.kfree p :: es => put_after_release (owned.erase p) es
  | owned, Event.module_put :: es => owned.isEmpty && put_after_release owned es
  | owned, _ :: es => put_after_release owned es

/-- Every `kfree` releases the most recently allocated buffer that is still
unreleased.  `stack` holds the unreleased buffers, newest first. -/
def released_newest_first : List Nat → List Event → Bool
  | _, [] => true
  | stack, Event.kzalloc _ (some p) :: es => released_newest_first (p :: stack) es
  | [], Event.kfree _ :: _ => false
  | top :: stack, Event.kfree p :: es => p == top && released_newest_first stack es
  | stack, _ :: es => released_newest_first stack es

/-- Every `kfree` releases the least recently allocated buffer that is still
unreleased.  `queue` holds the unreleased buffers, oldest first. -/
def released_oldest_first : List Nat → List Event → Bool
  | _, [] => true
  | queue, Event.kzalloc _ (some p) :: es => released_oldest_first (queue ++ [p]) es
  | [], Event.kfree _ :: _ => false
  | first :: queue, Event.kfree p :: es => p == first && released_oldest_first queue es
  | queue, _ :: es => released_oldest_first queue es

/-! ## Concrete inputs -/

/-- A kernel state with the provider loaded and unpinned. -/
def kernel0 : Kernel := ⟨0, 0, []⟩

/-- Every step succeeds; each handler returns 0. -/
def world_ok : World :=
  ⟨true, true, fun _ => true, fun _ => true, 0, fun _ => 0, 0⟩

/-- No module named "phonebook" is loaded. -/
def world_no_module : World := { world_ok with find_module := false }

/-- The module is being unloaded. -/
def world_unloading : World := { world_ok with try_module_get := false }

/-- The module exports none of the handlers. -/
def world_no_symbol : World :=
  { world_ok with find_kallsyms_symbol_value := fun _ => false }

/-- Every allocation fails. -/
def world_no_memory : World := { world_ok with kzalloc := fun _ => false }

/-- The first allocation succeeds, every later one fails. -/
def world_second_alloc_fails : World :=
  { world_ok with kzalloc := fun n => decide (n = 0) }

/-- Three bytes of the input cannot be read. -/
def world_copy_in_fault : World := { world_ok with copy_from_user := 3 }

/-- Five bytes of the output cannot be written; the handler returned 0. -/
def world_copy_out_fault : World := { world_ok with copy_to_user := 5 }

/-- Every step succeeds; each handler returns -2. -/
def world_handler_enoent : World := { world_ok with handler := fun _ => -2 }

/-- A `char` array holding the given bytes followed by NUL bytes. -/
def char_array (n : Nat) (bytes : List (Fin 256)) : CharArray n :=
  ⟨(bytes ++ List.replicate n 0).take n, by simp⟩

/-- The record `("A", "B", 30, "1", "e")`. -/
def ud_sample : pb_user_data :=
  ⟨char_array 64 [65], char_array 64 [66], 30, char_array 16 [49], char_array 64 [101]⟩

/-- The record `ud_sample` with a different byte after the NUL terminator of
`first_name`. -/
def ud_sample_dirty : pb_user_data :=
  { ud_sample with first_name := char_array 64 [65, 0, 7] }

/-- The record `ud_sample` aged 29. -/
def ud_sample_younger : pb_user_data := { ud_sample with age := 29 }

/-- The record `ud_sample` with first name "Z". -/
def ud_sample_z : pb_user_data := { ud_sample with first_name := char_array 64 [90] }

/-- The successful `find_pb_module` as events. -/
def pin_events : List Event :=
  [Event.mutex_lock, Event.find_module true, Event.try_module_get true, Event.mutex_unlock]

/-! ## Proofs -/

theorem find_pb_module_eq (w : World) (k : Kernel) :
    find_pb_module w k =
      if w.find_module = false then
        (none, ⟨k.refcnt, k.nalloc,
          k.trace ++ [Event.mutex_lock, Event.find_module false, Event.mutex_unlock]⟩)
      else if w.try_module_get = false then
        (none, ⟨k.refcnt, k.nalloc,
          k.trace ++ [Event.mutex_lock, Event.find_module true,
            Event.try_module_get false, Event.mutex_unlock]⟩)
      else
        (some Module.phonebook, ⟨k.refcnt + 1, k.nalloc, k.trace ++ pin_events⟩) := by
  unfold find_pb_module find_module try_module_get mutex_lock mutex_unlock Kernel.log
    pin_events
  by_cases h1 : w.find_module = false
  · simp [h1]
  by_cases h2 : w.try_module_get = false
  · simp [h1, h2]
  simp [h1, h2]

theorem find_pb_module_none_iff (w : World) (k : Kernel) :
    (find_pb_module w k).1 = none ↔ (w.find_module = false ∨ w.try_module_get = false) := by
  rw [find_pb_module_eq]
  split_ifs <;> simp_all

theorem add_user_paths (w : World) (k : Kernel) :
    (w.find_module = false ∧
      add_user w k = (-ENODEV, ⟨k.refcnt, k.nalloc,
          k.trace ++ [Event.mutex_lock, Event.find_module false, Event.mutex_unlock]⟩)) ∨
    (w.find_module = true ∧ w.try_module_get = false ∧
      add_user w k = (-ENODEV, ⟨k.refcnt, k.nalloc,
          k.trace ++ [Event.mutex_lock, Event.find_module true,
            Event.try_module_get false, Event.mutex_unlock]⟩)) ∨
    (w.find_module = true ∧ w.try_module_get = true ∧
      w.find_kallsyms_symbol_value Symbol.pb_add_user = false ∧
      add_user w k = (-ENODEV, ⟨k.refcnt, k.nalloc,
          k.trace ++ pin_events ++
            [Event.find_kallsyms_symbol_value Symbol.pb_add_user false,
             Event.module_put]⟩)) ∨
    (w.find_module = true ∧ w.try_module_get = true ∧
      w.find_kallsyms_symbol_value Symbol.pb_add_user = true ∧
      w.kzalloc k.nalloc = false ∧
      add_user w k = (-ENOMEM, ⟨k.refcnt, k.nalloc + 1,
          k.trace ++ pin_events ++
            [Event.find_kallsyms_symbol_value Symbol.pb_add_user true,
             Event.kzalloc sizeof_pb_user_data none, Event.module_put]⟩)) ∨
    (w.find_module = true ∧ w.try_module_get = true ∧
      w.find_kallsyms_symbol_value Symbol.pb_add_user = true ∧
      w.kzalloc k.nalloc = true ∧ w.copy_from_user ≠ 0 ∧
      add_user w k = (-EFAULT, ⟨k.refcnt, k.nalloc + 1,
          k.trace ++ pin_events ++
            [Event.find_kallsyms_symbol_value Symbol.pb_add_user true,
             Event.kzalloc sizeof_pb_user_data (some k.nalloc),
             Event.copy_from_user k.nalloc sizeof_pb_user_data w.copy_from_user,
             Event.kfree k.nalloc, Event.module_put]⟩)) ∨
    (w.find_module = true ∧ w.try_module_get = true ∧
      w.find_kallsyms_symbol_value Symbol.pb_add_user = true ∧
      w.kzalloc k.nalloc = true ∧ w.copy_from_user = 0 ∧
      add_user w k = (w.handler Symbol.pb_add_user, ⟨k.refcnt, k.nalloc + 1,
          k.trace ++ pin_events ++
            [Event.find_kallsyms_symbol_value Symbol.pb_add_user true,
             Event.kzalloc sizeof_pb_user_data (some k.nalloc),
             Event.copy_from_user k.nalloc sizeof_pb_user_data 0,
             Event.call Symbol.pb_add_user,
             Event.kfree k.nalloc, Event.module_put]⟩)) := by
  unfold add_user find_pb_module find_module try_module_get mutex_lock mutex_unlock
    find_kallsyms_symbol_value kzalloc copy_from_user call module_put
    kfree Kernel.log pin_events
  cases h1 : w.find_module
  · simp [h1]
  cases h2 : w.try_module_get
  · simp [h1, h2]
  cases h3 : w.find_kallsyms_symbol_value Symbol.pb_add_user
  · simp [h1, h2, h3]
  cases h4 : w.kzalloc k.nalloc
  · simp [h1, h2, h3, h4]
  by_cases h6 : w.copy_from_user = 0
  swap
  · simp [h1, h2, h3, h4, h6]
  simp [h1, h2, h3, h4, h6]

theorem get_user_paths (w : World) (len : Nat) (k : Kernel) :
    (w.find_module = false ∧
      get_user w len k = (-ENODEV, ⟨k.refcnt, k.nalloc,
          k.trace ++ [Event.mutex_lock, Event.find_module false, Event.mutex_unlock]⟩)) ∨
    (w.find_module = true ∧ w.try_module_get = false ∧
      get_user w len k = (-ENODEV, ⟨k.refcnt, k.nalloc,
          k.trace ++ [Event.mutex_lock, Event.find_module true,
            Event.try_module_get false, Event.mutex_unlock]⟩)) ∨
    (w.find_module = true ∧ w.try_module_get = true ∧
      w.find_kallsyms_symbol_value Symbol.pb_get_user = false ∧
      get_user w len k = (-ENODEV, ⟨k.refcnt, k.nalloc,
          k.trace ++ pin_events ++
            [Event.find_kallsyms_symbol_value Symbol.pb_get_user false,
             Event.module_put]⟩)) ∨
    (w.find_module = true ∧ w.try_module_get = true ∧
      w.find_kallsyms_symbol_value Symbol.pb_get_user = true ∧
      w.kzalloc k.nalloc = false ∧
      get_user w len k = (-ENOMEM, ⟨k.refcnt, k.nalloc + 1,
          k.trace ++ pin_events ++
            [Event.find_kallsyms_symbol_value Symbol.pb_get_user true,
             Event.kzalloc len none, Event.module_put]⟩)) ∨
    (w.find_module = true ∧ w.try_module_get = true ∧
      w.find_kallsyms_symbol_value Symbol.pb_get_user = true ∧
      w.kzalloc k.nalloc = true ∧ len = 0 ∧
      get_user w 0 k = (-EINVAL, ⟨k.refcnt, k.nalloc + 1,
          k.trace ++ pin_events ++
            [Event.find_kallsyms_symbol_value Symbol.pb_get_user true,
             Event.kzalloc 0 (some k.nalloc), Event.kfree k.nalloc,
             Event.module_put]⟩)) ∨
    (w.find_module = true ∧ w.try_module_get = true ∧
      w.find_kallsyms_symbol_value Symbol.pb_get_user = true ∧
      w.kzalloc k.nalloc = true ∧ len ≠ 0 ∧ w.copy_from_user ≠ 0 ∧
      get_user w len k = (-EFAULT, ⟨k.refcnt, k.nalloc + 1,
          k.trace ++ pin_events ++
            [Event.find_kallsyms_symbol_value Symbol.pb_get_user true,
             Event.kzalloc len (some k.nalloc),
             Event.copy_from_user k.nalloc len w.copy_from_user,
             Event.kfree k.nalloc, Event.module_put]⟩)) ∨
    (w.find_module = true ∧ w.try_module_get = true ∧
      w.find_kallsyms_symbol_value Symbol.pb_get_user = true ∧
      w.kzalloc k.nalloc = true ∧ len ≠ 0 ∧ w.copy_from_user = 0 ∧
      w.kzalloc (k.nalloc + 1) = false ∧
      get_user w len k = (-ENOMEM, ⟨k.refcnt, k.nalloc + 2,
          k.trace ++ pin_events ++
            [Event.find_kallsyms_symbol_value Symbol.pb_get_user true,
             Event.kzalloc len (some k.nalloc),
             Event.copy_from_user k.nalloc len 0,
             Event.kzalloc sizeof_pb_user_data none,
             Event.kfree k.nalloc, Event.module_put]⟩)) ∨
    (w.find_module = true ∧ w.try_module_get = true ∧
      w.find_kallsyms_symbol_value Symbol.pb_get_user = true ∧
      w.kzalloc k.nalloc = true ∧ len ≠ 0 ∧ w.copy_from_user = 0 ∧
      w.kzalloc (k.nalloc + 1) = true ∧ w.copy_to_user ≠ 0 ∧
      get_user w len k = (-EFAULT, ⟨k.refcnt, k.nalloc + 2,
          k.trace ++ pin_events ++
            [Event.find_kallsyms_symbol_value Symbol.pb_get_user true,
             Event.kzalloc len (some k.nalloc),
             Event.copy_from_user k.nalloc len 0,
             Event.kzalloc sizeof_pb_user_data (some (k.nalloc + 1)),
             Event.call Symbol.pb_get_user,
             Event.copy_to_user (k.nalloc + 1) sizeof_pb_user_data w.copy_to_user,
             Event.kfree k.nalloc, Event.kfree (k.nalloc + 1), Event.module_put]⟩)) ∨
    (w.find_module = true ∧ w.try_module_get = true ∧
      w.find_kallsyms_symbol_value Symbol.pb_get_user = true ∧
      w.kzalloc k.nalloc = true ∧ len ≠ 0 ∧ w.copy_from_user = 0 ∧
      w.kzalloc (k.nalloc + 1) = true ∧ w.copy_to_user = 0 ∧
      get_user w len k = (w.handler Symbol.pb_get_user, ⟨k.refcnt, k.nalloc + 2,
          k.trace ++ pin_events ++
            [Event.find_kallsyms_symbol_value Symbol.pb_get_user true,
             Event.kzalloc len (some k.nalloc),
             Event.copy_from_user k.nalloc len 0,
             Event.kzalloc sizeof_pb_user_data (some (k.nalloc + 1)),
             Event.call Symbol.pb_get_user,
             Event.copy_to_user (k.nalloc + 1) sizeof_pb_user_data 0,
             Event.kfree k.nalloc, Event.kfree (k.nalloc + 1), Event.module_put]⟩)) := by
  unfold get_user find_pb_module find_module try_module_get mutex_lock mutex_unlock
    find_kallsyms_symbol_value kzalloc copy_from_user copy_to_user call module_put
    kfree Kernel.log pin_events
  cases h1 : w.find_module
  · simp [h1]
  cases h2 : w.try_module_get
  · simp [h1, h2]
  cases h3 : w.find_kallsyms_symbol_value Symbol.pb_get_user
  · simp [h1, h2, h3]
  cases h4 : w.kzalloc k.nalloc
  · simp [h1, h2, h3, h4]
  by_cases h5 : len = 0
  · simp [h1, h2, h3, h4, h5]
  by_cases h6 : w.copy_from_user = 0
  swap
  · simp [h1, h2, h3, h4, h5, h6]
  cases h7 : w.kzalloc (k.nalloc + 1)
  · simp [h1, h2, h3, h4, h5, h6, h7]
  by_cases h8 : w.copy_to_user = 0
  swap
  · simp [h1, h2, h3, h4, h5, h6, h7, h8]
  simp [h1, h2, h3, h4, h5, h6, h7, h8]

theorem del_user_paths (w : World) (len : Nat) (k : Kernel) :
    (w.find_module = false ∧
      del_user w len k = (-ENODEV, ⟨k.refcnt, k.nalloc,
          k.trace ++ [Event.mutex_lock, Event.find_module false, Event.mutex_unlock]⟩)) ∨
    (w.find_module = true ∧ w.try_module_get = false ∧
      del_user w len k = (-ENODEV, ⟨k.refcnt, k.nalloc,
          k.trace ++ [Event.mutex_lock, Event.find_module true,
            Event.try_module_get false, Event.mutex_unlock]⟩)) ∨
    (w.find_module = true ∧ w.try_module_get = true ∧
      w.find_kallsyms_symbol_value Symbol.pb_del_user = false ∧
      del_user w len k = (-ENODEV, ⟨k.refcnt, k.nalloc,
          k.trace ++ pin_events ++
            [Event.find_kallsyms_symbol_value Symbol.pb_del_user false,
             Event.module_put]⟩)) ∨
    (w.find_module = true ∧ w.try_module_get = true ∧
      w.find_kallsyms_symbol_value Symbol.pb_del_user = true ∧
      w.kzalloc k.nalloc = false ∧
      del_user w len k = (-ENOMEM, ⟨k.refcnt, k.nalloc + 1,
          k.trace ++ pin_events ++
            [Event.find_kallsyms_symbol_value Symbol.pb_del_user true,
             Event.kzalloc len none, Event.module_put]⟩)) ∨
    (w.find_module = true ∧ w.try_module_get = true ∧
      w.find_kallsyms_symbol_value Symbol.pb_del_user = true ∧
      w.kzalloc k.nalloc = true ∧ len = 0 ∧
      del_user w 0 k = (-EINVAL, ⟨k.refcnt, k.nalloc + 1,
          k.trace ++ pin_events ++
            [Event.find_kallsyms_symbol_value Symbol.pb_del_user true,
             Event.kzalloc 0 (some k.nalloc), Event.kfree k.nalloc,
             Event.module_put]⟩)) ∨
    (w.find_module = true ∧ w.try_module_get = true ∧
      w.find_kallsyms_symbol_value Symbol.pb_del_user = true ∧
      w.kzalloc k.nalloc = true ∧ len ≠ 0 ∧ w.copy_from_user ≠ 0 ∧
      del_user w len k = (-EFAULT, ⟨k.refcnt, k.nalloc + 1,
          k.trace ++ pin_events ++
            [Event.find_kallsyms_symbol_value Symbol.pb_del_user true,
             Event.kzalloc len (some k.nalloc),
             Event.copy_from_user k.nalloc len w.copy_from_user,
             Event.kfree k.nalloc, Event.module_put]⟩)) ∨
    (w.find_module = true ∧ w.try_module_get = true ∧
      w.find_kallsyms_symbol_value Symbol.pb_del_user = true ∧
      w.kzalloc k.nalloc = true ∧ len ≠ 0 ∧ w.copy_from_user = 0 ∧
      del_user w len k = (w.handler Symbol.pb_del_user, ⟨k.refcnt, k.nalloc + 1,
          k.trace ++ pin_events ++
            [Event.find_kallsyms_symbol_value Symbol.pb_del_user true,
             Event.kzalloc len (some k.nalloc),
             Event.copy_from_user k.nalloc len 0,
             Event.call Symbol.pb_del_user,
             Event.kfree k.nalloc, Event.module_put]⟩)) := by
  unfold del_user find_pb_module find_module try_module_get mutex_lock mutex_unlock
    find_kallsyms_symbol_value kzalloc copy_from_user call module_put
    kfree Kernel.log pin_events
  cases h1 : w.find_module
  · simp [h1]
  cases h2 : w.try_module_get
  · simp [h1, h2]
  cases h3 : w.find_kallsyms_symbol_value Symbol.pb_del_user
  · simp [h1, h2, h3]
  cases h4 : w.kzalloc k.nalloc
  · simp [h1, h2, h3, h4]
  by_cases h5 : len = 0
  · simp [h1, h2, h3, h4, h5]
  by_cases h6 : w.copy_from_user = 0
  swap
  · simp [h1, h2, h3, h4, h5, h6]
  simp [h1, h2, h3, h4, h5, h6]

/-- C1. Pin/unpin balance: after each of `add_user`, `get_user` and `del_user`
the reference count of the provider equals its value before the call, for
every outcome of every step and every `len`; and `module_put` is executed
exactly once when `find_pb_module` returned a module and never when it
returned `NULL`. -/
theorem pin_balance (w : World) (len : Nat) (k : Kernel) :
    ((add_user w k).2.refcnt = k.refcnt ∧
      (call_trace k (add_user w k).2).count Event.module_put
        = if (find_pb_module w k).1 = none then 0 else 1) ∧
    ((get_user w len k).2.refcnt = k.refcnt ∧
      (call_trace k (get_user w len k).2).count Event.module_put
        = if (find_pb_module w k).1 = none then 0 else 1) ∧
    ((del_user w len k).2.refcnt = k.refcnt ∧
      (call_trace k (del_user w len k).2).count Event.module_put
        = if (find_pb_module w k).1 = none then 0 else 1) := by
  simp only [find_pb_module_none_iff]
  refine ⟨?_, ?_, ?_⟩
  · obtain h | h | h | h | h | h := add_user_paths w k <;>
      simp [h, call_trace, pin_events]
  · obtain h | h | h | h | h | h | h | h | h := get_user_paths w len k <;>
      simp [h, call_trace, pin_events]
  · obtain h | h | h | h | h | h | h := del_user_paths w len k <;>
      simp [h, call_trace, pin_events]

/-- C2 as stated fails: with `len == 0` and no provider loaded, `get_user` and
`del_user` return `-ENODEV`, not `-EINVAL`. -/
theorem len_zero_without_provider :
    (get_user world_no_module 0 kernel0).1 = -ENODEV ∧
    (del_user world_no_module 0 kernel0).1 = -ENODEV ∧
    (get_user world_no_module 0 kernel0).1 ≠ -EINVAL ∧
    (del_user world_no_module 0 kernel0).1 ≠ -EINVAL := by
  decide

/-- C2, amended: for `get_user` and `del_user` with `len == 0` the result is
`-ENODEV` when the provider lookup or the symbol resolution fails, otherwise
`-ENOMEM` when the staging allocation fails, and `-EINVAL` when all three
succeed. -/
theorem len_zero_result (w : World) (k : Kernel) :
    (get_user w 0 k).1 =
      (if (find_pb_module w k).1 = none ∨
          w.find_kallsyms_symbol_value Symbol.pb_get_user = false then -ENODEV
       else if w.kzalloc k.nalloc = false then -ENOMEM
       else -EINVAL) ∧
    (del_user w 0 k).1 =
      (if (find_pb_module w k).1 = none ∨
          w.find_kallsyms_symbol_value Symbol.pb_del_user = false then -ENODEV
       else if w.kzalloc k.nalloc = false then -ENOMEM
       else -EINVAL) := by
  simp only [find_pb_module_none_iff]
  constructor
  · obtain h | h | h | h | h | h | h | h | h := get_user_paths w 0 k <;>
      first
      | (simp [h]; done)
      | simp at h
  · obtain h | h | h | h | h | h | h := del_user_paths w 0 k <;>
      first
      | (simp [h]; done)
      | simp at h

/-- C3. Handler invocation guard: in each entry point the handler is invoked
at most once, every invocation happens while the pin is held, and the handler
is invoked exactly when `find_pb_module`, the symbol resolution, every staging
allocation and the complete `copy_from_user` succeeded and, for `get_user` and
`del_user`, `len != 0`; in every other case it is not invoked. -/
theorem handler_guard (w : World) (len : Nat) (k : Kernel) :
    (handler_calls (call_trace k (add_user w k).2) ≤ 1 ∧
      calls_pinned false (call_trace k (add_user w k).2) = true ∧
      (handler_calls (call_trace k (add_user w k).2) = 1 ↔
        (find_pb_module w k).1 ≠ none ∧
        w.find_kallsyms_symbol_value Symbol.pb_add_user = true ∧
        w.kzalloc k.nalloc = true ∧ w.copy_from_user = 0)) ∧
    (handler_calls (call_trace k (get_user w len k).2) ≤ 1 ∧
      calls_pinned false (call_trace k (get_user w len k).2) = true ∧
      (handler_calls (call_trace k (get_user w len k).2) = 1 ↔
        (find_pb_module w k).1 ≠ none ∧
        w.find_kallsyms_symbol_value Symbol.pb_get_user = true ∧
        w.kzalloc k.nalloc = true ∧ len ≠ 0 ∧ w.copy_from_user = 0 ∧
        w.kzalloc (k.nalloc + 1) = true)) ∧
    (handler_calls (call_trace k (del_user w len k).2) ≤ 1 ∧
      calls_pinned false (call_trace k (del_user w len k).2) = true ∧
      (handler_calls (call_trace k (del_user w len k).2) = 1 ↔
        (find_pb_module w k).1 ≠ none ∧
        w.find_kallsyms_symbol_value Symbol.pb_del_user = true ∧
        w.kzalloc k.nalloc = true ∧ len ≠ 0 ∧ w.copy_from_user = 0)) := by
  simp only [ne_eq, find_pb_module_none_iff]
  refine ⟨?_, ?_, ?_⟩
  · obtain h | h | h | h | h | h := add_user_paths w k <;>
      simp [h, call_trace, pin_events, handler_calls, calls_pinned]
  · obtain h | h | h | h | h | h | h | h | h := get_user_paths w len k <;>
      simp [h, call_trace, pin_events, handler_calls, calls_pinned]
  · obtain h | h | h | h | h | h | h := del_user_paths w len k <;>
      simp [h, call_trace, pin_events, handler_calls, calls_pinned]

/-- Witness of C3: when every step succeeds and `len` is 7, each entry point
invokes its handler once. -/
theorem handler_guard_witness :
    handler_calls (call_trace kernel0 (add_user world_ok kernel0).2) = 1 ∧
    handler_calls (call_trace kernel0 (get_user world_ok 7 kernel0).2) = 1 ∧
    handler_calls (call_trace kernel0 (del_user world_ok 7 kernel0).2) = 1 :=
  ⟨(handler_guard world_ok 7 kernel0).1.2.2.mpr (by decide),
   (handler_guard world_ok 7 kernel0).2.1.2.2.mpr (by decide),
   (handler_guard world_ok 7 kernel0).2.2.2.2.mpr (by decide)⟩

/-- C4. When `get_user` reaches the handler invocation and `copy_to_user`
leaves bytes uncopied, the call returns `-EFAULT` whatever the handler
returned. -/
theorem get_user_copy_out_fault (w : World) (len : Nat) (k : Kernel)
    (h_call : Event.call Symbol.pb_get_user ∈ call_trace k (get_user w len k).2)
    (h_fail : w.copy_to_user ≠ 0) :
    (get_user w len k).1 = -EFAULT := by
  obtain h | h | h | h | h | h | h | h | h := get_user_paths w len k <;>
    simp [h, call_trace, pin_events] at h_call ⊢
  exact absurd h.2.2.2.2.2.2.2.1 h_fail

/-- Witness of C4: the handler returned 0, five bytes of the output could not
be written, and the call returns `-EFAULT`. -/
theorem get_user_copy_out_fault_witness :
    world_copy_out_fault.handler Symbol.pb_get_user = 0 ∧
    (get_user world_copy_out_fault 7 kernel0).1 = -EFAULT :=
  ⟨rfl, get_user_copy_out_fault world_copy_out_fault 7 kernel0 (by decide) (by decide)⟩

/-- C5. Result pass-through: when `find_pb_module`, the symbol resolution,
the staging allocations and the copy-in succeed (and `len != 0` for `get_user`
and `del_user`, and `copy_to_user` succeeds for `get_user`), the call returns
exactly the value the handler returned. -/
theorem result_pass_through (w : World) (len : Nat) (k : Kernel) :
    ((find_pb_module w k).1 ≠ none →
      w.find_kallsyms_symbol_value Symbol.pb_add_user = true →
      w.kzalloc k.nalloc = true → w.copy_from_user = 0 →
      (add_user w k).1 = w.handler Symbol.pb_add_user) ∧
    ((find_pb_module w k).1 ≠ none →
      w.find_kallsyms_symbol_value Symbol.pb_get_user = true →
      w.kzalloc k.nalloc = true → len ≠ 0 → w.copy_from_user = 0 →
      w.kzalloc (k.nalloc + 1) = true → w.copy_to_user = 0 →
      (get_user w len k).1 = w.handler Symbol.pb_get_user) ∧
    ((find_pb_module w k).1 ≠ none →
      w.find_kallsyms_symbol_value Symbol.pb_del_user = true →
      w.kzalloc k.nalloc = true → len ≠ 0 → w.copy_from_user = 0 →
      (del_user w len k).1 = w.handler Symbol.pb_del_user) := by
  simp only [ne_eq, find_pb_module_none_iff]
  refine ⟨?_, ?_, ?_⟩
  · obtain h | h | h | h | h | h := add_user_paths w k <;> simp [h]
  · obtain h | h | h | h | h | h | h | h | h := get_user_paths w len k <;> simp [h]
  · obtain h | h | h | h | h | h | h := del_user_paths w len k <;> simp [h]

/-- Witness of C5: every step succeeds, each handler returns -2, and each
entry point returns -2. -/
theorem result_pass_through_witness :
    (add_user world_handler_enoent kernel0).1 = -2 ∧
    (get_user world_handler_enoent 7 kernel0).1 = -2 ∧
    (del_user world_handler_enoent 7 kernel0).1 = -2 :=
  ⟨(result_pass_through world_handler_enoent 7 kernel0).1
      (by decide) (by decide) (by decide) (by decide),
   (result_pass_through world_handler_enoent 7 kernel0).2.1
      (by decide) (by decide) (by decide) (by decide) (by decide) (by decide) (by decide),
   (result_pass_through world_handler_enoent 7 kernel0).2.2
      (by decide) (by decide) (by decide) (by decide) (by decide)⟩

/-- C6. Failure translation, for `add_user`, `get_user` and `del_user`: when
`find_pb_module` returns `NULL` or the symbol resolution returns `NULL` the
result is `-ENODEV` and no allocation request has been made; when a staging
allocation fails the result is `-ENOMEM`; when `copy_from_user` leaves bytes
uncopied the result is `-EFAULT`. -/
theorem failure_translation (w : World) (len : Nat) (k : Kernel) :
    (((find_pb_module w k).1 = none →
        (add_user w k).1 = -ENODEV ∧ kzalloc_calls (call_trace k (add_user w k).2) = 0) ∧
      (Event.find_kallsyms_symbol_value Symbol.pb_add_user false ∈ call_trace k (add_user w k).2 →
        (add_user w k).1 = -ENODEV ∧ kzalloc_calls (call_trace k (add_user w k).2) = 0) ∧
      ((∃ size, Event.kzalloc size none ∈ call_trace k (add_user w k).2) →
        (add_user w k).1 = -ENOMEM) ∧
      ((∃ dst n not_copied, not_copied ≠ 0 ∧
          Event.copy_from_user dst n not_copied ∈ call_trace k (add_user w k).2) →
        (add_user w k).1 = -EFAULT)) ∧
    (((find_pb_module w k).1 = none →
        (get_user w len k).1 = -ENODEV ∧ kzalloc_calls (call_trace k (get_user w len k).2) = 0) ∧
      (Event.find_kallsyms_symbol_value Symbol.pb_get_user false ∈ call_trace k (get_user w len k).2 →
        (get_user w len k).1 = -ENODEV ∧ kzalloc_calls (call_trace k (get_user w len k).2) = 0) ∧
      ((∃ size, Event.kzalloc size none ∈ call_trace k (get_user w len k).2) →
        (get_user w len k).1 = -ENOMEM) ∧
      ((∃ dst n not_copied, not_copied ≠ 0 ∧
          Event.copy_from_user dst n not_copied ∈ call_trace k (get_user w len k).2) →
        (get_user w len k).1 = -EFAULT)) ∧
    (((find_pb_module w k).1 = none →
        (del_user w len k).1 = -ENODEV ∧ kzalloc_calls (call_trace k (del_user w len k).2) = 0) ∧
      (Event.find_kallsyms_symbol_value Symbol.pb_del_user false ∈ call_trace k (del_user w len k).2 →
        (del_user w len k).1 = -ENODEV ∧ kzalloc_calls (call_trace k (del_user w len k).2) = 0) ∧
      ((∃ size, Event.kzalloc size none ∈ call_trace k (del_user w len k).2) →
        (del_user w len k).1 = -ENOMEM) ∧
      ((∃ dst n not_copied, not_copied ≠ 0 ∧
          Event.copy_from_user dst n not_copied ∈ call_trace k (del_user w len k).2) →
        (del_user w len k).1 = -EFAULT)) ∧
    [ENOMEM, EFAULT, ENODEV, EINVAL].Nodup := by
  simp only [find_pb_module_none_iff]
  refine ⟨?_, ?_, ?_, by decide⟩
  · obtain h | h | h | h | h | h := add_user_paths w k <;>
      simp [h, call_trace, pin_events, kzalloc_calls]
  · obtain h | h | h | h | h | h | h | h | h := get_user_paths w len k <;>
      simp [h, call_trace, pin_events, kzalloc_calls]
  · obtain h | h | h | h | h | h | h := del_user_paths w len k <;>
      simp [h, call_trace, pin_events, kzalloc_calls]

/-- Witness of C6: no module loaded, module being unloaded, handler not
exported, first allocation failing, second allocation failing, and a partial
copy-in, each with the result the claim names. -/
theorem failure_translation_witness :
    ((get_user world_no_module 7 kernel0).1 = -ENODEV ∧
      kzalloc_calls (call_trace kernel0 (get_user world_no_module 7 kernel0).2) = 0) ∧
    ((add_user world_unloading kernel0).1 = -ENODEV ∧
      kzalloc_calls (call_trace kernel0 (add_user world_unloading kernel0).2) = 0) ∧
    ((del_user world_no_symbol 7 kernel0).1 = -ENODEV ∧
      kzalloc_calls (call_trace kernel0 (del_user world_no_symbol 7 kernel0).2) = 0) ∧
    (add_user world_no_memory kernel0).1 = -ENOMEM ∧
    (get_user world_second_alloc_fails 7 kernel0).1 = -ENOMEM ∧
    (del_user world_copy_in_fault 7 kernel0).1 = -EFAULT :=
  ⟨(failure_translation world_no_module 7 kernel0).2.1.1 (by decide),
   (failure_translation world_unloading 7 kernel0).1.1 (by decide),
   (failure_translation world_no_symbol 7 kernel0).2.2.1.2.1 (by decide),
   (failure_translation world_no_memory 7 kernel0).1.2.2.1 ⟨sizeof_pb_user_data, by decide⟩,
   (failure_translation world_second_alloc_fails 7 kernel0).2.1.2.2.1
     ⟨sizeof_pb_user_data, by decide⟩,
   (failure_translation world_copy_in_fault 7 kernel0).2.2.1.2.2.2
     ⟨0, 7, 3, by decide, by decide⟩⟩

/-- C7. No leaked or double-released staging buffer: in each entry point,
on every path, every `kfree` is applied to a buffer allocated earlier in the
call and not yet released, no allocated buffer is left unreleased at the
return, and the released addresses are the allocated ones, each once. -/
theorem staging_released_once (w : World) (len : Nat) (k : Kernel) :
    (replay_heap [] (call_trace k (add_user w k).2) = some [] ∧
      (released (call_trace k (add_user w k).2)).Perm
        (allocated (call_trace k (add_user w k).2)) ∧
      (allocated (call_trace k (add_user w k).2)).Nodup) ∧
    (replay_heap [] (call_trace k (get_user w len k).2) = some [] ∧
      (released (call_trace k (get_user w len k).2)).Perm
        (allocated (call_trace k (get_user w len k).2)) ∧
      (allocated (call_trace k (get_user w len k).2)).Nodup) ∧
    (replay_heap [] (call_trace k (del_user w len k).2) = some [] ∧
      (released (call_trace k (del_user w len k).2)).Perm
        (allocated (call_trace k (del_user w len k).2)) ∧
      (allocated (call_trace k (del_user w len k).2)).Nodup) := by
  refine ⟨?_, ?_, ?_⟩
  · obtain h | h | h | h | h | h := add_user_paths w k <;>
      simp [h, call_trace, pin_events, replay_heap, released, allocated]
  · obtain h | h | h | h | h | h | h | h | h := get_user_paths w len k <;>
      simp [h, call_trace, pin_events, replay_heap, released, allocated]
  · obtain h | h | h | h | h | h | h := del_user_paths w len k <;>
      simp [h, call_trace, pin_events, replay_heap, released, allocated]

/-- C8 as stated fails: when every step of `get_user` succeeds, the key
buffer (address 0, allocated first) is released before the output record
(address 1, allocated second), so the release is not newest-first. -/
theorem get_user_release_order :
    call_trace kernel0 (get_user world_ok 7 kernel0).2 =
      [Event.mutex_lock, Event.find_module true, Event.try_module_get true,
       Event.mutex_unlock,
       Event.find_kallsyms_symbol_value Symbol.pb_get_user true,
       Event.kzalloc 7 (some 0), Event.copy_from_user 0 7 0,
       Event.kzalloc 212 (some 1), Event.call Symbol.pb_get_user,
       Event.copy_to_user 1 212 0,
       Event.kfree 0, Event.kfree 1, Event.module_put] ∧
    released_newest_first [] (call_trace kernel0 (get_user world_ok 7 kernel0).2)
      = false := by
  decide

/-- C8, amended: on every path of every entry point the pin is released only
when every allocated staging buffer has been released, and staging buffers are
released oldest-first; in `get_user`, on every path where both buffers were
allocated, the call ends by releasing `copied_last_name` (allocated first),
then `ud_to_copy` (allocated second), then the pin. -/
theorem cleanup_order (w : World) (len : Nat) (k : Kernel) :
    (put_after_release [] (call_trace k (add_user w k).2) = true ∧
      released_oldest_first [] (call_trace k (add_user w k).2) = true) ∧
    (put_after_release [] (call_trace k (get_user w len k).2) = true ∧
      released_oldest_first [] (call_trace k (get_user w len k).2) = true) ∧
    (put_after_release [] (call_trace k (del_user w len k).2) = true ∧
      released_oldest_first [] (call_trace k (del_user w len k).2) = true) ∧
    (allocated (call_trace k (get_user w len k).2) = [k.nalloc, k.nalloc + 1] →
      [Event.kfree k.nalloc, Event.kfree (k.nalloc + 1), Event.module_put]
        <:+ call_trace k (get_user w len k).2) := by
  refine ⟨?_, ?_, ?_, ?_⟩
  · obtain h | h | h | h | h | h := add_user_paths w k <;>
      simp [h, call_trace, pin_events, put_after_release, released_oldest_first]
  · obtain h | h | h | h | h | h | h | h | h := get_user_paths w len k <;>
      simp [h, call_trace, pin_events, put_after_release, released_oldest_first]
  · obtain h | h | h | h | h | h | h := del_user_paths w len k <;>
      simp [h, call_trace, pin_events, put_after_release, released_oldest_first]
  · obtain h | h | h | h | h | h | h | h | h := get_user_paths w len k <;>
      simp [h, call_trace, pin_events, allocated, List.suffix_cons_iff]

/-- Witness of C8, amended: when every step of `get_user` succeeds both
buffers are allocated, and the call ends with the two releases in allocation
order followed by `module_put`. -/
theorem cleanup_order_witness :
    allocated (call_trace kernel0 (get_user world_ok 7 kernel0).2) = [0, 1] ∧
    [Event.kfree 0, Event.kfree 1, Event.module_put]
      <:+ call_trace kernel0 (get_user world_ok 7 kernel0).2 :=
  ⟨by decide, (cleanup_order world_ok 7 kernel0).2.2.2 (by decide)⟩

/-! ### `pb_ud_cmp` -/

theorem strncmp_succ (cs ct : List (Fin 256)) (n : Nat) :
    strncmp cs ct (n + 1) =
      if cs.headD 0 ≠ ct.headD 0 then
        if cs.headD 0 < ct.headD 0 then -1 else 1
      else if cs.headD 0 = 0 then 0
      else strncmp cs.tail ct.tail n := rfl

theorem strncmp_swap (n : Nat) (cs ct : List (Fin 256)) :
    strncmp cs ct n < 0 ↔ 0 < strncmp ct cs n := by
  induction n generalizing cs ct with
  | zero => simp [strncmp]
  | succ n ih =>
    rw [strncmp_succ, strncmp_succ]
    have := ih cs.tail ct.tail
    generalize cs.headD 0 = x at *
    generalize ct.headD 0 = y at *
    split_ifs <;> omega

theorem strncmp_trans (n : Nat) (a b c : List (Fin 256)) :
    strncmp a b n < 0 → strncmp b c n < 0 → strncmp a c n < 0 := by
  induction n generalizing a b c with
  | zero => simp [strncmp]
  | succ n ih =>
    rw [strncmp_succ, strncmp_succ, strncmp_succ]
    have := ih a.tail b.tail c.tail
    generalize a.headD 0 = x at *
    generalize b.headD 0 = y at *
    generalize c.headD 0 = z at *
    split_ifs <;> omega

theorem strncmp_eq_left (n : Nat) (a b c : List (Fin 256)) :
    strncmp a b n = 0 → strncmp a c n = strncmp b c n := by
  induction n generalizing a b c with
  | zero => simp [strncmp]
  | succ n ih =>
    rw [strncmp_succ, strncmp_succ, strncmp_succ]
    have := ih a.tail b.tail c.tail
    generalize a.headD 0 = x at *
    generalize b.headD 0 = y at *
    generalize c.headD 0 = z at *
    split_ifs <;> first | omega | simp_all

theorem strncmp_eq_right (n : Nat) (a b c : List (Fin 256)) :
    strncmp a b n = 0 → strncmp c a n = strncmp c b n := by
  induction n generalizing a b c with
  | zero => simp [strncmp]
  | succ n ih =>
    rw [strncmp_succ, strncmp_succ, strncmp_succ]
    have := ih a.tail b.tail c.tail
    generalize a.headD 0 = x at *
    generalize b.headD 0 = y at *
    generalize c.headD 0 = z at *
    split_ifs <;> first | omega | simp_all

theorem strncmp_eq_zero_iff (n : Nat) (cs ct : List (Fin 256))
    (hs : cs.length = n) (ht : ct.length = n) :
    strncmp cs ct n = 0 ↔
      cs.takeWhile (fun c => c ≠ 0) = ct.takeWhile (fun c => c ≠ 0) := by
  induction n generalizing cs ct with
  | zero =>
    rw [List.length_eq_zero] at hs ht
    simp [strncmp, hs, ht]
  | succ n ih =>
    obtain ⟨x, cs, rfl⟩ := List.exists_cons_of_length_eq_add_one hs
    obtain ⟨y, ct, rfl⟩ := List.exists_cons_of_length_eq_add_one ht
    have := ih cs ct (by simpa using hs) (by simpa using ht)
    rw [strncmp_succ]
    simp only [List.headD_cons, List.tail_cons, List.takeWhile_cons]
    split_ifs <;> first | omega | simp_all

theorem cmp_char_array_eq_zero_iff {n : Nat} (a b : CharArray n) :
    cmp_char_array a b = 0 ↔ c_string a = c_string b :=
  strncmp_eq_zero_iff n a.val b.val a.property b.property

theorem weakCmp_cmp_char_array {n : Nat} (field : pb_user_data → CharArray n) :
    WeakCmp (fun ud1 ud2 => cmp_char_array (field ud1) (field ud2)) where
  swap _ _ := strncmp_swap n _ _
  trans _ _ _ := strncmp_trans n _ _ _
  eq_left _ _ _ := strncmp_eq_left n _ _ _
  eq_right _ _ _ := strncmp_eq_right n _ _ _

theorem weakCmp_age_cmp : WeakCmp age_cmp where
  swap a b := by unfold age_cmp; split_ifs <;> omega
  trans a b c := by unfold age_cmp; split_ifs <;> omega
  eq_left a b c := by
    unfold age_cmp
    intro h
    split_ifs at h ⊢ <;> omega
  eq_right a b c := by
    unfold age_cmp
    intro h
    split_ifs at h ⊢ <;> omega

theorem WeakCmp.lex {α : Type} {f g : α → α → Int} (hf : WeakCmp f) (hg : WeakCmp g) :
    WeakCmp (lex_cmp f g) where
  swap a b := by
    have := hf.swap a b
    have := hf.swap b a
    have := hg.swap a b
    unfold lex_cmp
    split_ifs <;> omega
  trans a b c := by
    have := hf.swap a b
    have := hf.swap b c
    have := hf.trans a b c
    have := hf.eq_left a b c
    have := hf.eq_right b c a
    have := hg.trans a b c
    unfold lex_cmp
    split_ifs <;> omega
  eq_left a b c := by
    have := hf.eq_left a b c
    have := hg.eq_left a b c
    unfold lex_cmp
    split_ifs <;> omega
  eq_right a b c := by
    have := hf.eq_right a b c
    have := hg.eq_right a b c
    unfold lex_cmp
    split_ifs <;> omega

theorem pb_ud_cmp_eq_lex (ud1 ud2 : pb_user_data) :
    pb_ud_cmp ud1 ud2 =
      lex_cmp (fun a b => cmp_char_array a.first_name b.first_name)
        (lex_cmp (fun a b => cmp_char_array a.last_name b.last_name)
          (lex_cmp age_cmp
            (lex_cmp (fun a b => cmp_char_array a.telnum b.telnum)
              (fun a b => cmp_char_array a.email b.email)))) ud1 ud2 := by
  unfold pb_ud_cmp lex_cmp age_cmp
  simp only []
  split_ifs <;> simp_all

theorem weakCmp_pb_ud_cmp : WeakCmp pb_ud_cmp := by
  have h : pb_ud_cmp = lex_cmp (fun a b => cmp_char_array a.first_name b.first_name)
        (lex_cmp (fun a b => cmp_char_array a.last_name b.last_name)
          (lex_cmp age_cmp
            (lex_cmp (fun a b => cmp_char_array a.telnum b.telnum)
              (fun a b => cmp_char_array a.email b.email)))) := by
    funext a b
    exact pb_ud_cmp_eq_lex a b
  rw [h]
  exact (weakCmp_cmp_char_array _).lex ((weakCmp_cmp_char_array _).lex
    (weakCmp_age_cmp.lex ((weakCmp_cmp_char_array _).lex (weakCmp_cmp_char_array _))))

/-- C9. Field priority of `pb_ud_cmp`: the result is that of the first field,
in the order `first_name`, `last_name`, `age`, `telnum`, `email`, whose
comparison is not 0; `age` is compared numerically as an unsigned 32-bit
value, negative when `a.age < b.age` and positive when `a.age > b.age`; and the
result is 0 exactly when all five comparisons are equal. -/
theorem pb_ud_cmp_field_priority (a b : pb_user_data) :
    (cmp_char_array a.first_name b.first_name ≠ 0 →
      pb_ud_cmp a b = cmp_char_array a.first_name b.first_name) ∧
    (cmp_char_array a.first_name b.first_name = 0 →
      cmp_char_array a.last_name b.last_name ≠ 0 →
      pb_ud_cmp a b = cmp_char_array a.last_name b.last_name) ∧
    (cmp_char_array a.first_name b.first_name = 0 →
      cmp_char_array a.last_name b.last_name = 0 →
      a.age.val < b.age.val → pb_ud_cmp a b < 0) ∧
    (cmp_char_array a.first_name b.first_name = 0 →
      cmp_char_array a.last_name b.last_name = 0 →
      b.age.val < a.age.val → 0 < pb_ud_cmp a b) ∧
    (cmp_char_array a.first_name b.first_name = 0 →
      cmp_char_array a.last_name b.last_name = 0 →
      a.age.val = b.age.val →
      cmp_char_array a.telnum b.telnum ≠ 0 →
      pb_ud_cmp a b = cmp_char_array a.telnum b.telnum) ∧
    (cmp_char_array a.first_name b.first_name = 0 →
      cmp_char_array a.last_name b.last_name = 0 →
      a.age.val = b.age.val →
      cmp_char_array a.telnum b.telnum = 0 →
      pb_ud_cmp a b = cmp_char_array a.email b.email) ∧
    (pb_ud_cmp a b = 0 ↔
      cmp_char_array a.first_name b.first_name = 0 ∧
      cmp_char_array a.last_name b.last_name = 0 ∧
      a.age.val = b.age.val ∧
      cmp_char_array a.telnum b.telnum = 0 ∧
      cmp_char_array a.email b.email = 0) := by
  unfold pb_ud_cmp
  simp only []
  refine ⟨?_, ?_, ?_, ?_, ?_, ?_, ?_⟩
  · intro h1
    simp [h1]
  · intro h1 h2
    simp [h1, h2]
  · intro h1 h2 h3
    have h3' : a.age < b.age := h3
    have h4 : a.age ≠ b.age := ne_of_lt h3'
    simp [h1, h2, h3', h4]
  · intro h1 h2 h3
    have h3' : b.age < a.age := h3
    have h4 : a.age ≠ b.age := ne_of_gt h3'
    have h5 : ¬ a.age < b.age := not_lt_of_gt h3'
    simp [h1, h2, h4, h5]
  · intro h1 h2 h3 h4
    have h3' : a.age = b.age := Fin.ext h3
    simp [h1, h2, h3', h4]
  · intro h1 h2 h3 h4
    have h3' : a.age = b.age := Fin.ext h3
    simp only [h1, h2, h3', h4, ne_eq, not_true_eq_false, if_false]
    split_ifs with h5
    · exact h5.symm
    · rfl
  · rw [← Fin.ext_iff]
    split_ifs <;> simp_all

/-- Witness of C9: records differing first in `first_name`, in `last_name`, in
`age` (either way), in `telnum` and in `email` are ordered by that field. -/
theorem pb_ud_cmp_field_priority_witness :
    pb_ud_cmp ud_sample_z ud_sample = 1 ∧
    pb_ud_cmp ud_sample { ud_sample_younger with last_name := char_array 64 [67] } = -1 ∧
    pb_ud_cmp ud_sample_younger ud_sample < 0 ∧
    0 < pb_ud_cmp ud_sample ud_sample_younger ∧
    pb_ud_cmp ud_sample { ud_sample with telnum := char_array 16 [50] } = -1 ∧
    pb_ud_cmp { ud_sample with email := char_array 64 [102] } ud_sample = 1 :=
  ⟨((pb_ud_cmp_field_priority ud_sample_z ud_sample).1 (by decide)).trans (by decide),
   ((pb_ud_cmp_field_priority ud_sample
      { ud_sample_younger with last_name := char_array 64 [67] }).2.1
      (by decide) (by decide)).trans (by decide),
   (pb_ud_cmp_field_priority ud_sample_younger ud_sample).2.2.1
      (by decide) (by decide) (by decide),
   (pb_ud_cmp_field_priority ud_sample ud_sample_younger).2.2.2.1
      (by decide) (by decide) (by decide),
   ((pb_ud_cmp_field_priority ud_sample
      { ud_sample with telnum := char_array 16 [50] }).2.2.2.2.1
      (by decide) (by decide) (by decide) (by decide)).trans (by decide),
   ((pb_ud_cmp_field_priority { ud_sample with email := char_array 64 [102] }
      ud_sample).2.2.2.2.2.1
      (by decide) (by decide) (by decide) (by decide)).trans (by decide)⟩

/-- C10 as stated fails: two records that differ in a byte after the NUL
terminator of `first_name` compare equal. -/
theorem pb_ud_cmp_zero_on_distinct_bytes :
    pb_ud_cmp ud_sample ud_sample_dirty = 0 ∧
    ¬ (ud_sample.first_name = ud_sample_dirty.first_name ∧
       ud_sample.last_name = ud_sample_dirty.last_name ∧
       ud_sample.telnum = ud_sample_dirty.telnum ∧
       ud_sample.email = ud_sample_dirty.email ∧
       ud_sample.age = ud_sample_dirty.age) := by
  decide

/-- C10, amended: `pb_ud_cmp` orders records by their fields read as C
strings.  It is 0 exactly when both records hold the same age and, in each of
`first_name`, `last_name`, `telnum` and `email`, the same bytes before the
first NUL byte (the whole field when it holds none); it is negative exactly
when the swapped comparison is positive; and "negative" is transitive. -/
theorem pb_ud_cmp_order (a b c : pb_user_data) :
    (pb_ud_cmp a b = 0 ↔
      c_string a.first_name = c_string b.first_name ∧
      c_string a.last_name = c_string b.last_name ∧
      a.age = b.age ∧
      c_string a.telnum = c_string b.telnum ∧
      c_string a.email = c_string b.email) ∧
    (pb_ud_cmp a b < 0 ↔ 0 < pb_ud_cmp b a) ∧
    (pb_ud_cmp a b < 0 → pb_ud_cmp b c < 0 → pb_ud_cmp a c < 0) := by
  refine ⟨?_, weakCmp_pb_ud_cmp.swap a b, weakCmp_pb_ud_cmp.trans a b c⟩
  simp only [← cmp_char_array_eq_zero_iff]
  unfold pb_ud_cmp
  simp only []
  split_ifs <;> simp_all

/-- Witness of C10, amended: records aged 29, 30 and 31 and otherwise equal
are ordered transitively. -/
theorem pb_ud_cmp_order_witness :
    pb_ud_cmp ud_sample_younger ud_sample < 0 ∧
    pb_ud_cmp ud_sample { ud_sample with age := 31 } < 0 ∧
    pb_ud_cmp ud_sample_younger { ud_sample with age := 31 } < 0 :=
  ⟨by decide, by decide,
   (pb_ud_cmp_order ud_sample_younger ud_sample { ud_sample with age := 31 }).2.2
     (by decide) (by decide)⟩

end Phonebook
